import Mathlib

/-!
Verification development for the constrained analytical query engine of the
chatbot agent repository (scripts/agent_tools/tools.py and
scripts/utils/tool_logger.py), as a shallow embedding.

Modelling conventions:
* The SQL table `marketing_data` is a `List Row`; DOUBLE PRECISION columns are
  modelled as `Rat` (the claims under verification never depend on binary
  floating-point rounding, only on presence/absence, ordering and equality of
  values).
* A free-text `where_clause` is carried both as the literal string (used in
  query construction and artifact naming) and as its denotation
  `pred : Row → Bool` (the external SQL engine's evaluation of that text).
* The module-level mutable list `tool_usage_log` of tool_logger.py is modelled
  by a small heap of list objects (`LoggerHeap`), so that the `.copy()`
  performed by `get_tool_log` is observably different from returning an alias.
* Python `datetime.now().isoformat()` is an input `now : String` (clock oracle).
* Each tool function threads the logger heap explicitly and returns its
  Python return value paired with the resulting heap.
-/

namespace ChatbotAgent

/-- An audit entry, mirroring the dict appended by `log_tool_usage`
(tool_logger.py lines 7-12).  Metadata is the argument mapping, rendered to
strings. -/
structure Entry where
  tool_name : String
  timestamp : String
  metadata : List (String × String)

/-- A heap of Python list objects holding `Entry` lists.  Address `logAddr`
holds the module-level `tool_usage_log`; `fresh` is the next unallocated
address (every unallocated cell holds `[]`). -/
structure LoggerHeap where
  cells : Nat → List Entry
  fresh : Nat

/-- The fixed address of the module-level `tool_usage_log` list. -/
def logAddr : Nat := 0

/-- Heap state right after the module body `tool_usage_log = []` runs. -/
def initHeap : LoggerHeap := ⟨fun _ => [], 1⟩

/-- Overwrite the contents of one list object. -/
def writeCell (h : LoggerHeap) (a : Nat) (v : List Entry) : LoggerHeap :=
  ⟨fun b => if b = a then v else h.cells b, h.fresh⟩

/-- tool_logger.py lines 7-12: append one entry to `tool_usage_log`. -/
def log_tool_usage (tool_name : String) (metadata : List (String × String))
    (now : String) (h : LoggerHeap) : LoggerHeap :=
  writeCell h logAddr (h.cells logAddr ++ [⟨tool_name, now, metadata⟩])

/-- tool_logger.py lines 14-15: `tool_usage_log.clear()`. -/
def clear_tool_log (h : LoggerHeap) : LoggerHeap :=
  writeCell h logAddr []

/-- tool_logger.py lines 17-18: `return tool_usage_log.copy()` — allocates a
fresh list object holding the current entries and returns its address. -/
def get_tool_log (h : LoggerHeap) : LoggerHeap × Nat :=
  (⟨fun b => if b = h.fresh then h.cells logAddr else h.cells b, h.fresh + 1⟩, h.fresh)

/-- Mutate an arbitrary list object: `xs.append(e)`. -/
def listAppendAt (h : LoggerHeap) (a : Nat) (e : Entry) : LoggerHeap :=
  writeCell h a (h.cells a ++ [e])

/-- Mutate an arbitrary list object: `xs.clear()`. -/
def listClearAt (h : LoggerHeap) (a : Nat) : LoggerHeap :=
  writeCell h a []

/-- Read the contents of a list object. -/
def readList (h : LoggerHeap) (a : Nat) : List Entry :=
  h.cells a

/-- Contents of the module-level `tool_usage_log`. -/
def logOf (h : LoggerHeap) : List Entry :=
  h.cells logAddr

/-- Run a sequence of `log_tool_usage` calls (one per entry, supplying each
entry's fields as the call arguments). -/
def recordMany (es : List Entry) (h : LoggerHeap) : LoggerHeap :=
  es.foldl (fun acc e => log_tool_usage e.tool_name e.metadata e.timestamp acc) h

/-- One row of the fixed `marketing_data` table (schema per the tool
docstrings, tools.py lines 40-60).  TIMESTAMP `date` is modelled as an
ordinal. -/
structure Row where
  year : Int
  quarter : String
  month : String
  week : Int
  date : Int
  country : String
  media_category : String
  media_name : String
  communication : String
  campaign_category : String
  product : String
  campaign_name : String
  revenue : Rat
  cost : Rat
  profit : Rat
  roi : Rat
  margin : Rat
  quarter_number : Int
  month_number : Int
  month_name : String

/-- A structured filter value (`aggregate_metric_structured` accepts ints for
numeric columns and strings for text columns). -/
inductive PyVal where
  | int : Int → PyVal
  | str : String → PyVal
deriving DecidableEq

/-- The metric allowlist shared by `aggregate_metric_simple_where` (line 108),
`aggregate_with_grouping` (line 270), `plot_scatter_relationship` (line 591)
and `aggregate_metric_structured` (line 743). -/
def allowed_metrics : List String :=
  ["revenue", "cost", "profit", "roi", "margin"]

/-- The aggregation allowlist (lines 109, 271, 744). -/
def allowed_aggs : List String :=
  ["sum", "avg", "min", "max", "count"]

/-- `plot_trend`'s metric allowlist (tools.py line 426).  Note: `margin` is
absent here, although the tool's own docstring (lines 371-372) lists it. -/
def trend_allowed_metrics : List String :=
  ["revenue", "cost", "profit", "roi"]

/-- `plot_trend`'s time-dimension allowlist (tools.py line 427).  Note:
`date` is absent here, although the docstring (lines 374-378) lists it and a
dead `elif time_dimension == "date"` branch exists (line 454). -/
def trend_allowed_time_dims : List String :=
  ["month_name", "quarter_number", "year"]

/-- `plot_scatter_relationship`'s category allowlist (lines 592-598). -/
def allowed_categories : List String :=
  ["campaign_name", "campaign_category", "media_category", "product", "country"]

/-- `aggregate_metric_structured`'s filter-column allowlist (lines 746-756). -/
def allowed_filter_columns : List String :=
  ["year", "quarter_number", "month_number", "month_name", "product",
   "country", "media_category", "campaign_name", "campaign_category"]

/-- Rejection text of lines 112, 274, 759.  The Python f-string renders the
set literal in an order the language does not pin down; the exact repr text is
immaterial to every claim, so one canonical rendering is used. -/
def invalidMetricMsg : String :=
  "Invalid metric. Allowed: revenue, cost, profit, roi, margin"

/-- Rejection text of lines 115, 277, 762 (set repr canonicalized as above). -/
def invalidAggMsg : String :=
  "Invalid aggregation. Allowed: sum, avg, min, max, count"

/-- Value of a metric column in a row (used after metric validation; the
catch-all is unreachable for validated metrics). -/
def metricVal (m : String) (r : Row) : Rat :=
  match m with
  | "revenue" => r.revenue
  | "cost" => r.cost
  | "profit" => r.profit
  | "roi" => r.roi
  | "margin" => r.margin
  | _ => 0

/-- String rendering of a column used as a GROUP BY key.  Unknown columns
would make the live database raise (DataSourceFailure, outside this
embedding); the catch-all renders them as the empty string. -/
def dimVal (col : String) (r : Row) : String :=
  match col with
  | "year" => toString r.year
  | "quarter" => r.quarter
  | "month" => r.month
  | "week" => toString r.week
  | "date" => toString r.date
  | "country" => r.country
  | "media_category" => r.media_category
  | "media_name" => r.media_name
  | "communication" => r.communication
  | "campaign_category" => r.campaign_category
  | "product" => r.product
  | "campaign_name" => r.campaign_name
  | "quarter_number" => toString r.quarter_number
  | "month_number" => toString r.month_number
  | "month_name" => r.month_name
  | _ => ""

/-- SQL aggregate semantics over the (non-null) values of the matching rows:
`sum`, `avg`, `min`, `max` yield NULL (`none`) on an empty set, `count`
yields 0. -/
def sqlAgg (agg : String) (vals : List Rat) : Option Rat :=
  match agg with
  | "count" => some (vals.length : Rat)
  | "sum" => if vals.isEmpty then none else some (vals.foldr (· + ·) 0)
  | "avg" => if vals.isEmpty then none else some ((vals.foldr (· + ·) 0) / (vals.length : Rat))
  | "min" => match vals with | [] => none | v :: rest => some (rest.foldr min v)
  | "max" => match vals with | [] => none | v :: rest => some (rest.foldr max v)
  | _ => none

/-- Abstraction of Python numeric `str()` rendering for one SQL cell. -/
def ratStr (q : Rat) : String := toString q

/-- Python `str()` of a fetched cell: `str(None)` is the four-letter string
"None". -/
def pyStr : Option Rat → String
  | none => "None"
  | some v => ratStr v

/-- First occurrences, in encounter order, of the values of a list (the
distinct GROUP BY keys in the order the groups arise). -/
def distinctKeys {α : Type} [DecidableEq α] (l : List α) : List α :=
  l.foldl (fun acc a => if a ∈ acc then acc else acc ++ [a]) []

/-- Query text of `aggregate_metric_simple_where` (tools.py lines 117-123),
reproducing the triple-quoted f-string. -/
def simpleWhereQueryText (agg metric where_clause : String) : String :=
  let where_sql := if where_clause = "" then "" else "WHERE " ++ where_clause
  "\n        SELECT " ++ agg ++ "(" ++ metric ++ ")\n        FROM marketing_data\n        "
    ++ where_sql ++ "\n    "

/-- tools.py lines 14-142: `aggregate_metric_simple_where`.  After validation
it logs (lines 126-133) and then executes.  `fetchone()` on an ungrouped
aggregate always yields exactly one row, so the `result is None` test of line
139 never fires; line 142 stringifies the (possibly NULL) cell. -/
def aggregate_metric_simple_where (table : List Row) (pred : Row → Bool)
    (now : String) (metric agg where_clause : String) (h : LoggerHeap) :
    String × LoggerHeap :=
  if metric ∈ allowed_metrics then
    if agg ∈ allowed_aggs then
      let _query := simpleWhereQueryText agg metric where_clause
      let h' := log_tool_usage "aggregate_metric_simple_where"
        [("metric", metric), ("agg", agg), ("where_clause", where_clause)] now h
      (pyStr (sqlAgg agg ((table.filter pred).map (metricVal metric))), h')
    else (invalidAggMsg, h)
  else (invalidMetricMsg, h)

/-- Query text of `aggregate_with_grouping` (tools.py lines 279-298). -/
def groupingQueryText (metric agg group_by where_clause : String)
    (order_desc : Bool) (limit : Int) : String :=
  let where_sql := if where_clause = "" then "" else "WHERE " ++ where_clause
  let group_sql := if group_by = "" then "" else "GROUP BY " ++ group_by
  let order_sql :=
    if group_by = "" then ""
    else "ORDER BY " ++ agg ++ "(" ++ metric ++ ") " ++ (if order_desc then "DESC" else "ASC")
  let limit_sql := if 0 < limit then "LIMIT " ++ toString limit else ""
  "\n        SELECT\n            " ++ (if group_by = "" then "" else group_by ++ ",")
    ++ " \n            " ++ agg ++ "(" ++ metric ++ ") AS value\n        FROM marketing_data\n        "
    ++ where_sql ++ "\n        " ++ group_sql ++ "\n        " ++ order_sql
    ++ "\n        " ++ limit_sql ++ "\n    "

/-- Comparison used to model `ORDER BY value` (groups are non-empty so the
NULL cases are unreachable; NULLs are placed first for definiteness). -/
def optRatLe : Option Rat → Option Rat → Bool
  | none, _ => true
  | some _, none => false
  | some a, some b => decide (a ≤ b)

/-- Insertion into a value-sorted list of (group key, aggregate) pairs. -/
def insertPair (le : (String × Option Rat) → (String × Option Rat) → Bool)
    (p : String × Option Rat) : List (String × Option Rat) → List (String × Option Rat)
  | [] => [p]
  | q :: rest => if le p q then p :: q :: rest else q :: insertPair le p rest

/-- Deterministic model of the database's ORDER BY on the aggregate value. -/
def sortPairs (le : (String × Option Rat) → (String × Option Rat) → Bool) :
    List (String × Option Rat) → List (String × Option Rat)
  | [] => []
  | p :: rest => insertPair le p (sortPairs le rest)

/-- `ORDER BY agg(metric) DESC/ASC` over (key, value) pairs. -/
def sortByVal (desc : Bool) (l : List (String × Option Rat)) :
    List (String × Option Rat) :=
  sortPairs (fun a b => if desc then optRatLe b.2 a.2 else optRatLe a.2 b.2) l

/-- Execution + result formatting of `aggregate_with_grouping` (tools.py lines
308-318).  Without grouping the result set is one row of one column, hitting
the scalar branch of line 315; with grouping, rows are (key, value) pairs,
formatted one per line (Python tuple quoting abstracted). -/
def groupingExec (table : List Row) (pred : Row → Bool)
    (metric agg group_by : String) (order_desc : Bool) (limit : Int) : String :=
  let filtered := table.filter pred
  if group_by = "" then
    pyStr (sqlAgg agg (filtered.map (metricVal metric)))
  else
    let keys := distinctKeys (filtered.map (dimVal group_by))
    let pairs := keys.map (fun k =>
      (k, sqlAgg agg ((filtered.filter (fun r => dimVal group_by r == k)).map (metricVal metric))))
    let sorted := sortByVal order_desc pairs
    let limited := if 0 < limit then sorted.take limit.toNat else sorted
    if limited.isEmpty then "No results found."
    else String.intercalate "\n" (limited.map (fun p => "(" ++ p.1 ++ ", " ++ pyStr p.2 ++ ")"))

/-- tools.py lines 148-318: `aggregate_with_grouping`.  Only `metric` and
`agg` are validated (lines 273-277); `group_by` is interpolated into the query
unchecked (lines 280-298).  Logging happens at line 299, before execution. -/
def aggregate_with_grouping (table : List Row) (pred : Row → Bool)
    (now : String) (metric agg group_by where_clause : String)
    (order_desc : Bool) (limit : Int) (h : LoggerHeap) : String × LoggerHeap :=
  if metric ∈ allowed_metrics then
    if agg ∈ allowed_aggs then
      let _query := groupingQueryText metric agg group_by where_clause order_desc limit
      let h' := log_tool_usage "aggregate_with_grouping"
        [("metric", metric), ("agg", agg), ("where_clause", where_clause)] now h
      (groupingExec table pred metric agg group_by order_desc limit, h')
    else (invalidAggMsg, h)
  else (invalidMetricMsg, h)

/-- Split a character list at commas (Python `str.split(",")`: the empty
string yields `[""]`, a trailing comma yields a trailing `""`). -/
def splitCommaAux : List Char → List Char → List String
  | [], acc => [String.mk acc.reverse]
  | c :: rest, acc =>
    if c = ',' then String.mk acc.reverse :: splitCommaAux rest []
    else splitCommaAux rest (c :: acc)

/-- Python `metrics.split(",")`. -/
def splitComma (s : String) : List String :=
  splitCommaAux s.toList []

/-- Drop leading whitespace characters. -/
def dropWhitespace : List Char → List Char
  | [] => []
  | c :: rest => if c.isWhitespace then dropWhitespace rest else c :: rest

/-- Python `str.strip()`: remove leading and trailing whitespace. -/
def pyStrip (s : String) : String :=
  String.mk ((dropWhitespace ((dropWhitespace s.toList).reverse)).reverse)

/-- tools.py line 429: `[m.strip() for m in metrics.split(",")]`. -/
def trendMetricList (metrics : String) : List String :=
  (splitComma metrics).map pyStrip

/-- tools.py lines 431-433: the loop returns on the first metric outside
`plot_trend`'s allowlist. -/
def firstInvalidTrendMetric (metrics : String) : Option String :=
  (trendMetricList metrics).find? (fun m => !decide (m ∈ trend_allowed_metrics))

/-- The chronological key of a row under a time dimension: display label
paired with the ORDER BY ordinal (tools.py lines 442-457; `month_name` is
co-grouped with and ordered by `month_number`). The catch-all is unreachable
after validation. -/
def trendKey (time_dimension : String) (r : Row) : String × Int :=
  match time_dimension with
  | "month_name" => (r.month_name, r.month_number)
  | "quarter_number" => (toString r.quarter_number, r.quarter_number)
  | "year" => (toString r.year, r.year)
  | "date" => (toString r.date, r.date)
  | _ => ("", 0)

/-- Ordering of chronological keys by their ordinal (the ORDER BY column). -/
def keyLe (a b : String × Int) : Prop := a.2 ≤ b.2

instance : DecidableRel keyLe := fun a b => Int.decLe a.2 b.2

instance : IsTotal (String × Int) keyLe := ⟨fun a b => Int.le_total a.2 b.2⟩

instance : IsTrans (String × Int) keyLe := ⟨fun _ _ _ hab hbc => le_trans hab hbc⟩

/-- `SUM(m)` over a list of rows. -/
def sumMetric (m : String) (rows : List Row) : Rat :=
  (rows.map (metricVal m)).foldr (· + ·) 0

/-- One row of the trend query's result set: the displayed dimension value,
the chronological ordinal it is ordered by, and the per-metric sums. -/
structure TrendPoint where
  label : String
  ord : Int
  sums : List Rat

/-- Denotation of the trend query (tools.py lines 462-468): filter by the
predicate, group by the chronological key, sum each metric per group, order
ascending by the dimension's ordinal. -/
def trendSeries (table : List Row) (pred : Row → Bool) (td : String)
    (metric_list : List String) : List TrendPoint :=
  let filtered := table.filter pred
  let keys := List.insertionSort keyLe (distinctKeys (filtered.map (trendKey td)))
  keys.map (fun k =>
    { label := k.1, ord := k.2,
      sums := metric_list.map (fun m =>
        sumMetric m (filtered.filter (fun r => decide (trendKey td r = k)))) })

/-- tools.py line 472: `re.sub(r"[^a-zA-Z0-9_]", "_", where_clause)`. -/
def sanitizeName (s : String) : String :=
  String.mk (s.toList.map (fun c => if c.isAlphanum || c = '_' then c else '_'))

/-- Query text of `plot_trend` (tools.py lines 440-468).  Line 463
interpolates `time_dimension` itself into the SELECT (the computed
`select_dim` of line 443 is never used there). -/
def trendQueryText (time_dimension : String) (metric_list : List String)
    (where_clause : String) : String :=
  let where_sql := if where_clause = "" then "" else "WHERE " ++ where_clause
  let agg_sql := String.intercalate ", " (metric_list.map (fun m => "SUM(" ++ m ++ ") AS " ++ m))
  let group_sql :=
    if time_dimension = "month_name" then "GROUP BY month_name, month_number"
    else "GROUP BY " ++ time_dimension
  let order_sql :=
    if time_dimension = "month_name" then "ORDER BY month_number"
    else "ORDER BY " ++ time_dimension
  "\n        SELECT " ++ time_dimension ++ ", " ++ agg_sql ++ "\n        FROM marketing_data\n        "
    ++ where_sql ++ "\n        " ++ group_sql ++ "\n        " ++ order_sql ++ "\n    "

/-- Observable outcome of one `plot_trend` call: its return string, the
materialized query result (the dataframe), and the artifact paths actually
written (`none` = file not created). -/
structure TrendOutcome where
  result : String
  series : List TrendPoint
  csvPath : Option String
  imgPath : Option String

/-- tools.py lines 324-495: `plot_trend`.  Validates the metric list (lines
431-433, against the allowlist of line 426, which lacks `margin`) and the
time dimension (line 435, against line 427, which lacks `date`); never calls
`log_tool_usage`.  On an empty result set it returns the sentinel before the
CSV write (line 481) and the `savefig` (line 490), so no artifact exists. -/
def plot_trend (table : List Row) (pred : Row → Bool)
    (metrics time_dimension where_clause : String) (h : LoggerHeap) :
    TrendOutcome × LoggerHeap :=
  match firstInvalidTrendMetric metrics with
  | some m => (⟨"Invalid metric: " ++ m, [], none, none⟩, h)
  | none =>
    if time_dimension ∈ trend_allowed_time_dims then
      if time_dimension = "month_name" ∨ time_dimension = "quarter_number"
          ∨ time_dimension = "year" ∨ time_dimension = "date" then
        let metric_list := trendMetricList metrics
        let _query := trendQueryText time_dimension metric_list where_clause
        let df := trendSeries table pred time_dimension metric_list
        let safe_where := sanitizeName where_clause
        let safe_metrics := String.intercalate "_" metric_list
        let filename := safe_metrics ++ "_" ++ time_dimension ++ "_" ++ safe_where ++ ".png"
        let csv_path := "scripts/plots_output/" ++ safe_metrics ++ "_" ++ time_dimension
          ++ "_" ++ safe_where ++ ".csv"
        if df.isEmpty then (⟨"No data found.", df, none, none⟩, h)
        else (⟨"Plot generated successfully.", df, some csv_path,
          some ("scripts/plots_output/" ++ filename)⟩, h)
      else (⟨"Invalid time dimension.", [], none, none⟩, h)
    else (⟨"Invalid time dimension: " ++ time_dimension, [], none, none⟩, h)

/-- tools.py lines 611-612: optional year filter over the in-memory
snapshot. -/
def scatterFiltered (mdf : List Row) (year : Option Int) : List Row :=
  match year with
  | some y => mdf.filter (fun r => r.year == y)
  | none => mdf

/-- tools.py lines 502-634: `plot_scatter_relationship`.  Validates both
metrics and (when non-empty) the category dimension, filters the snapshot by
year, returns the sentinel on an empty filtered snapshot and the confirmation
string after rendering; never calls `log_tool_usage`.  The rendering itself
(lines 617-632) only displays and cannot change the return value. -/
def plot_scatter_relationship (mdf : List Row)
    (x_metric y_metric category_dimension : String) (year : Option Int)
    (h : LoggerHeap) : String × LoggerHeap :=
  if x_metric ∈ allowed_metrics then
    if y_metric ∈ allowed_metrics then
      if category_dimension ≠ "" ∧ category_dimension ∉ allowed_categories then
        ("Invalid category dimension: " ++ category_dimension, h)
      else
        let df := scatterFiltered mdf year
        if df.isEmpty then ("No data found.", h)
        else ("Scatter plot generated successfully.", h)
    else ("Invalid y_metric: " ++ y_metric, h)
  else ("Invalid x_metric: " ++ x_metric, h)

/-- tools.py lines 767-776: walk the filter items in dict iteration order,
returning on the first key outside the allowlist, otherwise accumulating the
`col = :param_col` condition strings and the bound-parameter pairs. -/
def buildConds : List (String × PyVal) →
    Except String (List String × List (String × PyVal))
  | [] => Except.ok ([], [])
  | (col, v) :: rest =>
    if col ∈ allowed_filter_columns then
      match buildConds rest with
      | Except.ok (cs, ps) =>
        Except.ok ((col ++ " = :param_" ++ col) :: cs, ("param_" ++ col, v) :: ps)
      | Except.error e => Except.error e
    else Except.error ("Invalid filter column: " ++ col)

/-- tools.py lines 758-779: validation and parameterized query assembly of
`aggregate_metric_structured`.  `if filters:` is false both for `None` and for
an empty dict, in which case no WHERE clause is added. -/
def structuredBuild (metric agg : String)
    (filters : Option (List (String × PyVal))) :
    Except String (String × List (String × PyVal)) :=
  if metric ∈ allowed_metrics then
    if agg ∈ allowed_aggs then
      let base := "SELECT " ++ agg ++ "(" ++ metric ++ ") FROM marketing_data"
      let fs := filters.getD []
      if fs.isEmpty then Except.ok (base, [])
      else
        match buildConds fs with
        | Except.error e => Except.error e
        | Except.ok (conds, params) =>
          Except.ok (base ++ " WHERE " ++ String.intercalate " AND " conds, params)
    else Except.error invalidAggMsg
  else Except.error invalidMetricMsg

/-- Denotation of one bound equality filter `col = :param_col` on a row.
Unknown columns cannot reach here (validated); a type-mismatched value (e.g.
a string bound against BIGINT `year`) matches no row. -/
def filterMatches (col : String) (v : PyVal) (r : Row) : Bool :=
  match col, v with
  | "year", PyVal.int n => r.year == n
  | "quarter_number", PyVal.int n => r.quarter_number == n
  | "month_number", PyVal.int n => r.month_number == n
  | "month_name", PyVal.str s => r.month_name == s
  | "product", PyVal.str s => r.product == s
  | "country", PyVal.str s => r.country == s
  | "media_category", PyVal.str s => r.media_category == s
  | "campaign_name", PyVal.str s => r.campaign_name == s
  | "campaign_category", PyVal.str s => r.campaign_category == s
  | _, _ => false

/-- Conjunction of all equality filters (the ` AND `-joined WHERE clause). -/
def rowMatchesFilters (fs : List (String × PyVal)) (r : Row) : Bool :=
  fs.all (fun kv => filterMatches kv.1 kv.2 r)

/-- Rendering of the `filters` argument inside the audit metadata.  (The
Python dict repr text is immaterial to the claims; a canonical rendering is
used.) -/
def filtersRepr : Option (List (String × PyVal)) → String
  | none => "None"
  | some fs =>
    String.intercalate ", " (fs.map (fun kv =>
      kv.1 ++ "=" ++ (match kv.2 with | PyVal.int n => toString n | PyVal.str s => s)))

/-- tools.py lines 639-796: `aggregate_metric_structured`.  Rejections (metric,
aggregation, filter column) return before the `log_tool_usage` call of line
781; a successful build logs once and executes with bound parameters.  Line
793 checks both a missing row and a NULL cell, so a NULL aggregate yields the
sentinel here (unlike the simple builder). -/
def aggregate_metric_structured (table : List Row) (now : String)
    (metric agg : String) (filters : Option (List (String × PyVal)))
    (h : LoggerHeap) : String × LoggerHeap :=
  match structuredBuild metric agg filters with
  | Except.error e => (e, h)
  | Except.ok _qp =>
    let h' := log_tool_usage "aggregate_metric_structured"
      [("metric", metric), ("agg", agg), ("filters", filtersRepr filters)] now h
    let rows := table.filter (rowMatchesFilters (filters.getD []))
    match sqlAgg agg (rows.map (metricVal metric)) with
    | none => ("No results found.", h')
    | some v => (ratStr v, h')

/-- A concrete row of `marketing_data`, used as witness data. -/
def sampleRow : Row :=
  { year := 2023, quarter := "2023 Q1", month := "2023M01", week := 1, date := 1,
    country := "DK", media_category := "online", media_name := "Search",
    communication := "Brand", campaign_category := "Awareness",
    product := "Product 1", campaign_name := "Campaign 1",
    revenue := 100, cost := 40, profit := 60, roi := 3/2, margin := 3/5,
    quarter_number := 1, month_number := 1, month_name := "January" }

/-- `log_tool_usage` appends exactly one entry to the module log. -/
theorem logOf_log_tool_usage (tool_name : String) (md : List (String × String))
    (now : String) (h : LoggerHeap) :
    logOf (log_tool_usage tool_name md now h) = logOf h ++ [⟨tool_name, now, md⟩] := by
  simp [logOf, log_tool_usage, writeCell, logAddr]

/-- `log_tool_usage` leaves the allocation counter alone. -/
theorem fresh_log_tool_usage (tool_name : String) (md : List (String × String))
    (now : String) (h : LoggerHeap) :
    (log_tool_usage tool_name md now h).fresh = h.fresh := rfl

/-- Folding a sequence of `record` calls appends the entries in call order. -/
theorem logOf_recordMany (es : List Entry) (h : LoggerHeap) :
    logOf (recordMany es h) = logOf h ++ es := by
  induction es generalizing h with
  | nil => simp [recordMany]
  | cons e t ih =>
    have : recordMany (e :: t) h
        = recordMany t (log_tool_usage e.tool_name e.metadata e.timestamp h) := rfl
    rw [this, ih, logOf_log_tool_usage]
    simp

/-- The condition strings built by `buildConds` (and the rejection message, if
any) depend only on the sequence of filter keys, never on the values. -/
theorem buildConds_map_fst (fs1 fs2 : List (String × PyVal))
    (hk : fs1.map Prod.fst = fs2.map Prod.fst) :
    Except.map Prod.fst (buildConds fs1) = Except.map Prod.fst (buildConds fs2) := by
  induction fs1 generalizing fs2 with
  | nil =>
    cases fs2 with
    | nil => rfl
    | cons b t => simp at hk
  | cons a t1 ih =>
    cases fs2 with
    | nil => simp at hk
    | cons b t2 =>
      obtain ⟨c1, v1⟩ := a
      obtain ⟨c2, v2⟩ := b
      simp only [List.map_cons, List.cons.injEq] at hk
      obtain ⟨hc, ht⟩ := hk
      subst hc
      have ihh := ih t2 ht
      by_cases hcol : c1 ∈ allowed_filter_columns
      · simp only [buildConds, if_pos hcol]
        cases h1 : buildConds t1 with
        | error e1 =>
          cases h2 : buildConds t2 with
          | error e2 =>
            rw [h1, h2] at ihh
            simp only [Except.map] at ihh ⊢
            exact ihh
          | ok p2 =>
            rw [h1, h2] at ihh
            simp [Except.map] at ihh
        | ok p1 =>
          cases h2 : buildConds t2 with
          | error e2 =>
            rw [h1, h2] at ihh
            simp [Except.map] at ihh
          | ok p2 =>
            rw [h1, h2] at ihh
            obtain ⟨cs1, ps1⟩ := p1
            obtain ⟨cs2, ps2⟩ := p2
            simp only [Except.map] at ihh ⊢
            simp only [Except.ok.injEq] at ihh ⊢
            simp only [ihh]
      · simp only [buildConds, if_neg hcol, Except.map]

/-- When some filter key is outside the allowlist, `buildConds` rejects (the
Python loop returns at the first such key). -/
theorem buildConds_error_of_bad (fs : List (String × PyVal))
    (hbad : ∃ kv ∈ fs, kv.1 ∉ allowed_filter_columns) :
    ∃ e, buildConds fs = Except.error e := by
  induction fs with
  | nil =>
    obtain ⟨kv, hkv, _⟩ := hbad
    exact absurd hkv (List.not_mem_nil kv)
  | cons a t ih =>
    obtain ⟨c, v⟩ := a
    by_cases hc : c ∈ allowed_filter_columns
    · have hbt : ∃ kv ∈ t, kv.1 ∉ allowed_filter_columns := by
        obtain ⟨kv, hkv, hkv2⟩ := hbad
        rcases List.mem_cons.mp hkv with heq | hmem
        · rw [heq] at hkv2
          exact absurd hc hkv2
        · exact ⟨kv, hmem, hkv2⟩
      obtain ⟨e, he⟩ := ih hbt
      refine ⟨e, ?_⟩
      simp only [buildConds, if_pos hc, he]
    · exact ⟨"Invalid filter column: " ++ c, by simp only [buildConds, if_neg hc]⟩

/-- When every filter key is allowed, `buildConds` succeeds. -/
theorem buildConds_isOk_of_allowed (fs : List (String × PyVal))
    (hall : ∀ kv ∈ fs, kv.1 ∈ allowed_filter_columns) :
    ∃ cp, buildConds fs = Except.ok cp := by
  induction fs with
  | nil => exact ⟨([], []), rfl⟩
  | cons a t ih =>
    obtain ⟨⟨cs, ps⟩, hcs⟩ := ih (fun kv hkv => hall kv (List.mem_cons_of_mem a hkv))
    obtain ⟨c, v⟩ := a
    have hc : c ∈ allowed_filter_columns := hall (c, v) (List.mem_cons_self _ _)
    refine ⟨((c ++ " = :param_" ++ c) :: cs, ("param_" ++ c, v) :: ps), ?_⟩
    simp only [buildConds, if_pos hc, hcs]

/-- The trend series is sorted ascending by the chronological ordinal. -/
theorem trendSeries_ord_sorted (table : List Row) (pred : Row → Bool)
    (td : String) (ms : List String) :
    ((trendSeries table pred td ms).map TrendPoint.ord).Sorted (· ≤ ·) := by
  unfold trendSeries
  rw [List.map_map]
  have hs := List.sorted_insertionSort keyLe
    (distinctKeys ((table.filter pred).map (trendKey td)))
  exact List.Pairwise.map _ (fun a b hab => hab) hs

/-- Claim C1: `margin` belongs to the shared metric allowlist (so the two
aggregate builders, the structured builder and the scatter tool accept it,
and the tool docstrings list it), yet `plot_trend` rejects it as an invalid
metric before building any query — its local allowlist (tools.py line 426)
omits `margin`. -/
theorem plot_trend_margin_rejected :
    (plot_trend [] (fun _ => true) "margin" "year" "" initHeap).1.result
      = "Invalid metric: margin"
    ∧ "margin" ∈ allowed_metrics := by
  exact ⟨rfl, by decide⟩

/-- Claim C5: `plot_trend` rejects `time_dimension = "date"` with the
invalid-time-dimension message (the allowlist of tools.py line 427 omits
`date`, although the docstring lists it and the `elif` branch for `date` at
line 454 exists but is unreachable). -/
theorem plot_trend_date_rejected :
    (plot_trend [] (fun _ => true) "revenue" "date" "" initHeap).1.result
      = "Invalid time dimension: date" := by
  rfl

/-- Claim C7: on a query matching zero rows, the SQL aggregate `sum(revenue)`
is NULL; `fetchone()` still yields one row, so the `result is None` check of
line 139 never fires and `aggregate_metric_simple_where` returns
`str(None) = "None"` instead of its documented no-results sentinel. -/
theorem simple_where_null_returns_none :
    (aggregate_metric_simple_where [] (fun _ => true) "2024-01-01T00:00:00"
      "revenue" "sum" "" initHeap).1 = "None"
    ∧ ("None" : String) ≠ "No results." := by
  exact ⟨rfl, by decide⟩

/-- Claim C2 counterexample: `group_by = "communication"` lies outside the
filter/group-dimension set, yet `aggregate_with_grouping` produces no
invalid-dimension rejection — the query is built and executed (here over an
empty table, so the ordinary empty-result sentinel comes back). -/
theorem grouping_dim_not_validated_cx :
    ("communication" : String) ∉
      ["year", "quarter_number", "month_number", "month_name", "country",
       "media_category", "media_name", "campaign_name", "campaign_category",
       "product"]
    ∧ (aggregate_with_grouping [] (fun _ => true) "t" "revenue" "sum"
        "communication" "" true 0 initHeap).1 = "No results found." := by
  exact ⟨by decide, rfl⟩

/-- Claim C3 counterexample: two filter dicts with the same key set but
different insertion order make `aggregate_metric_structured` build different
SQL texts, so the query text does not depend only on the *set* of keys. -/
theorem structured_key_order_cx :
    (([("year", PyVal.int 2023), ("country", PyVal.str "DK")].map Prod.fst).toFinset
      = ([("country", PyVal.str "DK"), ("year", PyVal.int 2023)].map Prod.fst).toFinset)
    ∧ (structuredBuild "revenue" "sum"
        (some [("year", PyVal.int 2023), ("country", PyVal.str "DK")])).toOption.map Prod.fst
      ≠ (structuredBuild "revenue" "sum"
        (some [("country", PyVal.str "DK"), ("year", PyVal.int 2023)])).toOption.map Prod.fst := by
  exact ⟨by decide, by decide⟩

/-- Claim C4 counterexample: a validation-rejected call to
`aggregate_metric_simple_where` appends no audit entry (the invalid-metric
return at line 112 precedes the `log_tool_usage` call at line 126), and
`plot_trend` and `plot_scatter_relationship` leave the logger state untouched
on any call (they contain no `log_tool_usage` call at all) — not the exactly
one entry the claim requires. -/
theorem logging_claim_cx :
    logOf (aggregate_metric_simple_where [] (fun _ => true) "ts"
      "impressions" "sum" "" initHeap).2 = []
    ∧ (plot_trend [] (fun _ => true) "revenue" "year" "" initHeap).2 = initHeap
    ∧ (plot_scatter_relationship [sampleRow] "revenue" "cost" "" none initHeap).2
      = initHeap := by
  exact ⟨rfl, rfl, rfl⟩

/-- Claim C2, amended: `aggregate_with_grouping` never validates `group_by`.
Once `metric` and `agg` pass their checks, every `group_by` value — allowed
dimension or not — reaches query construction and execution; no
invalid-dimension rejection path exists in the tool. -/
theorem grouping_accepts_any_group_by (table : List Row) (pred : Row → Bool)
    (now metric agg group_by where_clause : String) (order_desc : Bool)
    (limit : Int) (h : LoggerHeap)
    (hm : metric ∈ allowed_metrics) (ha : agg ∈ allowed_aggs) :
    (aggregate_with_grouping table pred now metric agg group_by where_clause
      order_desc limit h).1
      = groupingExec table pred metric agg group_by order_desc limit := by
  simp only [aggregate_with_grouping, if_pos hm, if_pos ha]

/-- Witness for `grouping_accepts_any_group_by` at the disallowed dimension
`communication`. -/
theorem grouping_accepts_any_group_by_witness :
    ("revenue" ∈ allowed_metrics ∧ "sum" ∈ allowed_aggs)
    ∧ (aggregate_with_grouping [] (fun _ => true) "t" "revenue" "sum"
        "communication" "" true 0 initHeap).1
      = groupingExec [] (fun _ => true) "revenue" "sum" "communication" true 0 :=
  ⟨⟨by decide, by decide⟩,
    grouping_accepts_any_group_by [] (fun _ => true) "t" "revenue" "sum"
      "communication" "" true 0 initHeap (by decide) (by decide)⟩

/-- Claim C3, amended: the SQL text built by `aggregate_metric_structured`
depends only on `metric`, `agg` and the *sequence* of filter keys (dict
iteration order); it never depends on the filter values, which travel only in
the bound-parameter mapping.  Two calls differing only in filter values build
the identical query string (or the identical rejection). -/
theorem structured_query_ignores_values (metric agg : String)
    (f1 f2 : Option (List (String × PyVal)))
    (hk : (f1.getD []).map Prod.fst = (f2.getD []).map Prod.fst) :
    Except.map Prod.fst (structuredBuild metric agg f1)
      = Except.map Prod.fst (structuredBuild metric agg f2) := by
  by_cases hm : metric ∈ allowed_metrics
  · by_cases ha : agg ∈ allowed_aggs
    · simp only [structuredBuild, if_pos hm, if_pos ha]
      have hemp : (f1.getD []).isEmpty = (f2.getD []).isEmpty := by
        cases hf1 : f1.getD [] with
        | nil =>
          cases hf2 : f2.getD [] with
          | nil => rfl
          | cons b t => rw [hf1, hf2] at hk; simp at hk
        | cons a t =>
          cases hf2 : f2.getD [] with
          | nil => rw [hf1, hf2] at hk; simp at hk
          | cons b t2 => rfl
      by_cases he : (f1.getD []).isEmpty = true
      · rw [if_pos he, if_pos (hemp.symm.trans he)]
      · rw [if_neg he, if_neg (fun hcon => he (hemp.trans hcon))]
        have hbc := buildConds_map_fst _ _ hk
        cases h1 : buildConds (f1.getD []) with
        | error e1 =>
          cases h2 : buildConds (f2.getD []) with
          | error e2 =>
            rw [h1, h2] at hbc
            simp only [Except.map, Except.error.injEq] at hbc ⊢
            exact hbc
          | ok p2 => rw [h1, h2] at hbc; simp [Except.map] at hbc
        | ok p1 =>
          cases h2 : buildConds (f2.getD []) with
          | error e2 => rw [h1, h2] at hbc; simp [Except.map] at hbc
          | ok p2 =>
            rw [h1, h2] at hbc
            obtain ⟨cs1, ps1⟩ := p1
            obtain ⟨cs2, ps2⟩ := p2
            simp only [Except.map, Except.ok.injEq] at hbc ⊢
            rw [hbc]
    · simp only [structuredBuild, if_pos hm, if_neg ha]
  · simp only [structuredBuild, if_neg hm]

/-- Witness for `structured_query_ignores_values`: replacing the bound value
`2023` by a string of SQL metacharacters leaves the built query text
unchanged. -/
theorem structured_query_ignores_values_witness :
    (((some [("year", PyVal.int 2023)] : Option (List (String × PyVal))).getD
        []).map Prod.fst
      = ((some [("year", PyVal.str "; DROP TABLE x; --")] :
          Option (List (String × PyVal))).getD []).map Prod.fst)
    ∧ Except.map Prod.fst
        (structuredBuild "revenue" "sum" (some [("year", PyVal.int 2023)]))
      = Except.map Prod.fst
        (structuredBuild "revenue" "sum"
          (some [("year", PyVal.str "; DROP TABLE x; --")])) :=
  ⟨rfl, structured_query_ignores_values "revenue" "sum"
    (some [("year", PyVal.int 2023)])
    (some [("year", PyVal.str "; DROP TABLE x; --")]) rfl⟩

/-- Claim C6: for valid metrics and a valid (or empty) category dimension,
`plot_scatter_relationship` returns the no-data sentinel exactly when the
year-filtered snapshot is empty, and the success confirmation otherwise. -/
theorem scatter_sentinel_or_success (mdf : List Row)
    (x y cat : String) (yr : Option Int) (h : LoggerHeap)
    (hx : x ∈ allowed_metrics) (hy : y ∈ allowed_metrics)
    (hc : cat = "" ∨ cat ∈ allowed_categories) :
    (plot_scatter_relationship mdf x y cat yr h).1
      = if (scatterFiltered mdf yr).isEmpty then "No data found."
        else "Scatter plot generated successfully." := by
  have hguard : ¬(cat ≠ "" ∧ cat ∉ allowed_categories) := by
    rcases hc with h1 | h2
    · exact fun hcon => hcon.1 h1
    · exact fun hcon => hcon.2 h2
  simp only [plot_scatter_relationship, if_pos hx, if_pos hy, if_neg hguard]
  by_cases he : (scatterFiltered mdf yr).isEmpty = true
  · rw [if_pos he, if_pos he]
  · rw [if_neg he, if_neg he]

/-- Witness for `scatter_sentinel_or_success` on a one-row snapshot. -/
theorem scatter_sentinel_or_success_witness :
    ("revenue" ∈ allowed_metrics ∧ "cost" ∈ allowed_metrics
      ∧ (("" : String) = "" ∨ ("" : String) ∈ allowed_categories))
    ∧ (plot_scatter_relationship [sampleRow] "revenue" "cost" "" none initHeap).1
      = if (scatterFiltered [sampleRow] none).isEmpty then "No data found."
        else "Scatter plot generated successfully." :=
  ⟨⟨by decide, by decide, Or.inl rfl⟩,
    scatter_sentinel_or_success [sampleRow] "revenue" "cost" "" none initHeap
      (by decide) (by decide) (Or.inl rfl)⟩

/-- Claim C8: for `time_dimension = "month_name"`, the series produced by
`plot_trend` is ordered ascending by the numeric month ordinal
(`month_number`), for every table and every predicate — calendar order, not
alphabetical order, sparse subsets included. -/
theorem plot_trend_month_sorted (table : List Row) (pred : Row → Bool)
    (metrics wc : String) (h : LoggerHeap) :
    (((plot_trend table pred metrics "month_name" wc h).1.series).map
      TrendPoint.ord).Sorted (· ≤ ·) := by
  cases hfi : firstInvalidTrendMetric metrics with
  | some m => simp [plot_trend, hfi, List.Sorted]
  | none =>
    simp only [plot_trend, hfi]
    rw [if_pos (by decide : ("month_name" : String) ∈ trend_allowed_time_dims)]
    rw [if_pos (Or.inl True.intro)]
    by_cases he : (trendSeries table pred "month_name" (trendMetricList metrics)).isEmpty = true
    · rw [if_pos he]
      exact trendSeries_ord_sorted table pred "month_name" (trendMetricList metrics)
    · rw [if_neg he]
      exact trendSeries_ord_sorted table pred "month_name" (trendMetricList metrics)

/-- Claim C9: whenever the trend query matches zero rows (and the arguments
pass validation), `plot_trend` returns the no-data sentinel and writes no
artifact — neither the CSV file nor the image file. -/
theorem plot_trend_empty_no_artifact (table : List Row) (pred : Row → Bool)
    (metrics td wc : String) (h : LoggerHeap)
    (hm : firstInvalidTrendMetric metrics = none)
    (htd : td ∈ trend_allowed_time_dims)
    (hmatch : table.filter pred = []) :
    (plot_trend table pred metrics td wc h).1.result = "No data found."
    ∧ (plot_trend table pred metrics td wc h).1.csvPath = none
    ∧ (plot_trend table pred metrics td wc h).1.imgPath = none := by
  have hd : td = "month_name" ∨ td = "quarter_number" ∨ td = "year"
      ∨ td = "date" := by
    simp only [trend_allowed_time_dims, List.mem_cons,
      List.not_mem_nil, or_false] at htd
    tauto
  have hser : trendSeries table pred td (trendMetricList metrics) = [] := by
    simp [trendSeries, hmatch, distinctKeys, List.insertionSort]
  simp only [plot_trend, hm, if_pos htd, if_pos hd, hser]
  simp

/-- Witness for `plot_trend_empty_no_artifact` on an empty table. -/
theorem plot_trend_empty_no_artifact_witness :
    (firstInvalidTrendMetric "revenue" = none
      ∧ "month_name" ∈ trend_allowed_time_dims
      ∧ ([] : List Row).filter (fun _ => true) = [])
    ∧ (plot_trend [] (fun _ => true) "revenue" "month_name" "" initHeap).1.result
        = "No data found."
    ∧ (plot_trend [] (fun _ => true) "revenue" "month_name" "" initHeap).1.csvPath
        = none
    ∧ (plot_trend [] (fun _ => true) "revenue" "month_name" "" initHeap).1.imgPath
        = none :=
  ⟨⟨rfl, by decide, rfl⟩,
    plot_trend_empty_no_artifact [] (fun _ => true) "revenue" "month_name" ""
      initHeap rfl (by decide) rfl⟩

/-- Claim C4, amended: only the three aggregation tools write to the audit
log.  Each appends exactly one entry (recording its arguments) when its
validations pass; a call rejected by any validation — invalid metric, invalid
aggregation, or (for the structured tool) invalid filter column — appends
none, because every rejection returns before the `log_tool_usage` call;
`plot_trend` and `plot_scatter_relationship` never touch the log on any
invocation. -/
theorem logging_behavior :
    (∀ (table : List Row) (pred : Row → Bool) (now metric agg wc : String)
      (h : LoggerHeap), metric ∈ allowed_metrics → agg ∈ allowed_aggs →
      logOf (aggregate_metric_simple_where table pred now metric agg wc h).2
        = logOf h ++ [⟨"aggregate_metric_simple_where", now,
            [("metric", metric), ("agg", agg), ("where_clause", wc)]⟩])
    ∧ (∀ (table : List Row) (pred : Row → Bool) (now metric agg gb wc : String)
      (od : Bool) (lim : Int) (h : LoggerHeap),
      metric ∈ allowed_metrics → agg ∈ allowed_aggs →
      logOf (aggregate_with_grouping table pred now metric agg gb wc od lim h).2
        = logOf h ++ [⟨"aggregate_with_grouping", now,
            [("metric", metric), ("agg", agg), ("where_clause", wc)]⟩])
    ∧ (∀ (table : List Row) (now metric agg : String)
      (fs : Option (List (String × PyVal))) (h : LoggerHeap),
      metric ∈ allowed_metrics → agg ∈ allowed_aggs →
      (∀ kv ∈ fs.getD [], kv.1 ∈ allowed_filter_columns) →
      logOf (aggregate_metric_structured table now metric agg fs h).2
        = logOf h ++ [⟨"aggregate_metric_structured", now,
            [("metric", metric), ("agg", agg), ("filters", filtersRepr fs)]⟩])
    ∧ (∀ (table : List Row) (pred : Row → Bool) (now metric agg wc : String)
      (h : LoggerHeap), metric ∉ allowed_metrics ∨ agg ∉ allowed_aggs →
      (aggregate_metric_simple_where table pred now metric agg wc h).2 = h)
    ∧ (∀ (table : List Row) (pred : Row → Bool) (now metric agg gb wc : String)
      (od : Bool) (lim : Int) (h : LoggerHeap),
      metric ∉ allowed_metrics ∨ agg ∉ allowed_aggs →
      (aggregate_with_grouping table pred now metric agg gb wc od lim h).2 = h)
    ∧ (∀ (table : List Row) (now metric agg : String)
      (fs : Option (List (String × PyVal))) (h : LoggerHeap),
      metric ∉ allowed_metrics ∨ agg ∉ allowed_aggs
        ∨ (∃ kv ∈ fs.getD [], kv.1 ∉ allowed_filter_columns) →
      (aggregate_metric_structured table now metric agg fs h).2 = h)
    ∧ (∀ (table : List Row) (pred : Row → Bool) (metrics td wc : String)
      (h : LoggerHeap), (plot_trend table pred metrics td wc h).2 = h)
    ∧ (∀ (mdf : List Row) (x y cat : String) (yr : Option Int) (h : LoggerHeap),
      (plot_scatter_relationship mdf x y cat yr h).2 = h) := by
  refine ⟨?_, ?_, ?_, ?_, ?_, ?_, ?_, ?_⟩
  · intro table pred now metric agg wc h hm ha
    simp only [aggregate_metric_simple_where, if_pos hm, if_pos ha]
    exact logOf_log_tool_usage "aggregate_metric_simple_where"
      [("metric", metric), ("agg", agg), ("where_clause", wc)] now h
  · intro table pred now metric agg gb wc od lim h hm ha
    simp only [aggregate_with_grouping, if_pos hm, if_pos ha]
    exact logOf_log_tool_usage "aggregate_with_grouping"
      [("metric", metric), ("agg", agg), ("where_clause", wc)] now h
  · intro table now metric agg fs h hm ha hcols
    obtain ⟨cp, hcp⟩ := buildConds_isOk_of_allowed _ hcols
    have hsb : ∃ qp, structuredBuild metric agg fs = Except.ok qp := by
      simp only [structuredBuild, if_pos hm, if_pos ha]
      by_cases he : (fs.getD []).isEmpty = true
      · rw [if_pos he]
        exact ⟨_, rfl⟩
      · obtain ⟨cs, ps⟩ := cp
        rw [if_neg he, hcp]
        exact ⟨_, rfl⟩
    obtain ⟨qp, hqp⟩ := hsb
    simp only [aggregate_metric_structured, hqp]
    cases sqlAgg agg ((table.filter (rowMatchesFilters (fs.getD []))).map
        (metricVal metric)) with
    | none =>
      exact logOf_log_tool_usage "aggregate_metric_structured"
        [("metric", metric), ("agg", agg), ("filters", filtersRepr fs)] now h
    | some v =>
      exact logOf_log_tool_usage "aggregate_metric_structured"
        [("metric", metric), ("agg", agg), ("filters", filtersRepr fs)] now h
  · intro table pred now metric agg wc h hrej
    by_cases hm : metric ∈ allowed_metrics
    · have ha : agg ∉ allowed_aggs := hrej.resolve_left (fun hcon => hcon hm)
      simp only [aggregate_metric_simple_where, if_pos hm, if_neg ha]
    · simp only [aggregate_metric_simple_where, if_neg hm]
  · intro table pred now metric agg gb wc od lim h hrej
    by_cases hm : metric ∈ allowed_metrics
    · have ha : agg ∉ allowed_aggs := hrej.resolve_left (fun hcon => hcon hm)
      simp only [aggregate_with_grouping, if_pos hm, if_neg ha]
    · simp only [aggregate_with_grouping, if_neg hm]
  · intro table now metric agg fs h hrej
    have hsb : ∃ e, structuredBuild metric agg fs = Except.error e := by
      by_cases hm : metric ∈ allowed_metrics
      · by_cases ha : agg ∈ allowed_aggs
        · have hbad : ∃ kv ∈ fs.getD [], kv.1 ∉ allowed_filter_columns := by
            rcases hrej with h1 | h2 | h3
            · exact absurd hm h1
            · exact absurd ha h2
            · exact h3
          obtain ⟨e, he⟩ := buildConds_error_of_bad (fs.getD []) hbad
          have hne : ¬((fs.getD []).isEmpty = true) := by
            obtain ⟨kv, hkv, _⟩ := hbad
            cases hfs : fs.getD [] with
            | nil => rw [hfs] at hkv; exact absurd hkv (List.not_mem_nil kv)
            | cons a t => simp
          refine ⟨e, ?_⟩
          simp only [structuredBuild, if_pos hm, if_pos ha, if_neg hne, he]
        · exact ⟨invalidAggMsg, by simp only [structuredBuild, if_pos hm, if_neg ha]⟩
      · exact ⟨invalidMetricMsg, by simp only [structuredBuild, if_neg hm]⟩
    obtain ⟨e, he⟩ := hsb
    simp only [aggregate_metric_structured, he]
  · intro table pred metrics td wc h
    cases hfi : firstInvalidTrendMetric metrics with
    | some m => simp [plot_trend, hfi]
    | none =>
      simp only [plot_trend, hfi]
      split
      · split
        · split
          · rfl
          · rfl
        · rfl
      · rfl
  · intro mdf x y cat yr h
    simp only [plot_scatter_relationship]
    split
    · split
      · split
        · rfl
        · split
          · rfl
          · rfl
      · rfl
    · rfl

/-- Witness for `logging_behavior`: a validated aggregation call appends
exactly its entry; an invalid-aggregation call and an invalid-filter-column
call append nothing; a `plot_trend` call appends nothing. -/
theorem logging_behavior_witness :
    ("revenue" ∈ allowed_metrics ∧ "sum" ∈ allowed_aggs
      ∧ "median" ∉ allowed_aggs
      ∧ ("week" : String) ∉ allowed_filter_columns)
    ∧ logOf (aggregate_metric_simple_where [] (fun _ => true) "ts" "revenue"
        "sum" "" initHeap).2
      = logOf initHeap ++ [⟨"aggregate_metric_simple_where", "ts",
          [("metric", "revenue"), ("agg", "sum"), ("where_clause", "")]⟩]
    ∧ (aggregate_metric_simple_where [] (fun _ => true) "ts" "revenue"
        "median" "" initHeap).2 = initHeap
    ∧ (aggregate_metric_structured [] "ts" "revenue" "sum"
        (some [("week", PyVal.int 1)]) initHeap).2 = initHeap
    ∧ (plot_trend [] (fun _ => true) "revenue" "year" "" initHeap).2 = initHeap :=
  ⟨⟨by decide, by decide, by decide, by decide⟩,
    logging_behavior.1 [] (fun _ => true) "ts" "revenue" "sum" "" initHeap
      (by decide) (by decide),
    logging_behavior.2.2.2.1 [] (fun _ => true) "ts" "revenue" "median" ""
      initHeap (Or.inr (by decide)),
    logging_behavior.2.2.2.2.2.1 [] "ts" "revenue" "sum"
      (some [("week", PyVal.int 1)]) initHeap
      (Or.inr (Or.inr ⟨("week", PyVal.int 1), by decide, by decide⟩)),
    logging_behavior.2.2.2.2.2.2.1 [] (fun _ => true) "revenue" "year" ""
      initHeap⟩

/-- Claim C10: immediately after `clear_tool_log`, `get_tool_log` returns the
empty sequence; after n `log_tool_usage` calls since the last reset it
returns exactly those n entries in call order; and the returned sequence is a
fresh copy — reading it yields the log's contents, while appending to it or
clearing it leaves the log itself unchanged. -/
theorem tool_log_contract (h : LoggerHeap) (es : List Entry) (e : Entry)
    (hf : 0 < h.fresh) :
    readList (get_tool_log (clear_tool_log h)).1 (get_tool_log (clear_tool_log h)).2 = []
    ∧ readList (get_tool_log (recordMany es (clear_tool_log h))).1
        (get_tool_log (recordMany es (clear_tool_log h))).2 = es
    ∧ readList (get_tool_log h).1 (get_tool_log h).2 = logOf h
    ∧ logOf (listAppendAt (get_tool_log h).1 (get_tool_log h).2 e) = logOf h
    ∧ logOf (listClearAt (get_tool_log h).1 (get_tool_log h).2) = logOf h := by
  have hne : logAddr ≠ h.fresh := by
    simp only [logAddr]
    omega
  refine ⟨?_, ?_, ?_, ?_, ?_⟩
  · simp [readList, get_tool_log, clear_tool_log, writeCell, logOf, logAddr]
  · have h2 := logOf_recordMany es (clear_tool_log h)
    have h3 : logOf (clear_tool_log h) = [] := by
      simp [logOf, clear_tool_log, writeCell, logAddr]
    rw [h3] at h2
    simp only [List.nil_append] at h2
    simpa [readList, get_tool_log, logOf] using h2
  · simp [readList, get_tool_log, logOf]
  · simp [logOf, listAppendAt, writeCell, readList, get_tool_log, hne]
  · simp [logOf, listClearAt, writeCell, readList, get_tool_log, hne]

/-- Witness for `tool_log_contract` at the initial heap with one recorded
entry. -/
theorem tool_log_contract_witness :
    0 < initHeap.fresh
    ∧ readList (get_tool_log (clear_tool_log initHeap)).1
        (get_tool_log (clear_tool_log initHeap)).2 = []
    ∧ readList (get_tool_log (recordMany [⟨"aggregate_with_grouping", "ts", []⟩]
        (clear_tool_log initHeap))).1
        (get_tool_log (recordMany [⟨"aggregate_with_grouping", "ts", []⟩]
        (clear_tool_log initHeap))).2 = [⟨"aggregate_with_grouping", "ts", []⟩]
    ∧ readList (get_tool_log initHeap).1 (get_tool_log initHeap).2 = logOf initHeap
    ∧ logOf (listAppendAt (get_tool_log initHeap).1 (get_tool_log initHeap).2
        ⟨"x", "ts2", []⟩) = logOf initHeap
    ∧ logOf (listClearAt (get_tool_log initHeap).1 (get_tool_log initHeap).2)
        = logOf initHeap :=
  ⟨by decide,
    tool_log_contract initHeap [⟨"aggregate_with_grouping", "ts", []⟩]
      ⟨"x", "ts2", []⟩ (by decide)⟩

end ChatbotAgent
